import Mathlib

set_option maxRecDepth 10000

/-!
A shallow embedding of the input-to-MIDI translation core of
`Trombone_3D_Live_04_05_2011.cpp`, together with theorems checking the
natural-language specification against it.

Modelling conventions:
* C `int`/`long` arithmetic is modelled on `Int` (all quantities here fit
  easily inside 16-bit/32-bit ranges, so no wrap-around occurs in the source).
* C integer division truncates toward zero, so the Arduino `map` helper is
  embedded with `Int.tdiv`.
* A `digitalRead` result is a `Bool` (`true` = reads HIGH = 1, `false` =
  reads LOW = 0); the switches are wired active-low.
* The mutable globals of the sketch become the explicit record
  `TromboneState`; one iteration of `loop` becomes the pure function
  `loop : TromboneState → Inputs → TromboneState × List MidiMessage`
  returning the MIDI messages emitted during that tick, in order.
* `DEBUG` is the compile-time constant `false` in the source, so the
  serial-print branches of the send helpers are dead code and only the
  MIDI-emitting branches are embedded.
-/

/-- One MIDI message, as handed to the `MidiUart` transport.
Argument order follows the transport calls in the source:
`sendNoteOn(chan, note, vel)`, `sendNoteOff(chan, note, vel)`,
`sendPitchBend(value)`, `sendCC(chan, controller, value)`. -/
inductive MidiMessage where
  | noteOn (chan note vel : Int)
  | noteOff (chan note vel : Int)
  | pitchBend (value : Int)
  | cc (chan controller value : Int)
deriving DecidableEq

/-- The mutable globals of the sketch that the core logic reads and writes. -/
structure TromboneState where
  currentNote : Int
  currentPitchBend : Int
  currentVolume : Int
  currentXValue : Int
  currentYValue : Int
  metaMode : Bool
  metaValue : Nat
  ccSendTime : Int
deriving DecidableEq

/-- The raw sensor/switch readings sampled during one tick of `loop`.
`ot0..ot3` are the `digitalRead` results of the four overtone switch pins,
`metaSw`/`panicSw` those of the meta and panic pins (all active-low);
`slide`, `breath`, `x`, `y` are the `analogRead` results, and `now` is the
value of `millis()` during the tick. -/
structure Inputs where
  ot0 : Bool
  ot1 : Bool
  ot2 : Bool
  ot3 : Bool
  metaSw : Bool
  panicSw : Bool
  slide : Int
  breath : Int
  x : Int
  y : Int
  now : Int
deriving DecidableEq

-- Configuration constants, verbatim from the source.

def MIDI_VOLUME_CC : Int := 7
def MIDI_BREATH_CC : Int := 2
def X_CC : Int := 16
def Y_CC : Int := 17
def MIN_CC_INTERVAL : Int := 10
def PB_SEND_THRESHOLD : Int := 10
def VOLUME_SEND_THRESHOLD : Int := 1
def NOTE_ON_VOLUME_THRESHOLD : Int := 60
def VOLUME_MAX_VALUE : Int := 500
def LPOT_NO_TOUCH_VALUE : Int := 1010
def LPOT_SLIDE_POS_1 : Int := 144
def LPOT_SLIDE_POS_7 : Int := 350
def MAX_PITCH_BEND_DOWN : Int := 0

/-- `16383 / 2` with C integer division. -/
def PITCH_BEND_NEUTRAL : Int := Int.tdiv 16383 2

/-- The overtone series: `{FUNDAMENTAL, OT_1, ..., OT_7}`. -/
def overtones : List Int := [48, 55, 60, 64, 67, 70, 72, 74]

/-- Switch values for given overtones, verbatim from the source. -/
def overtone_sw_values : List Nat := [0x00, 0x01, 0x03, 0x07, 0x0f, 0x0e, 0x0c, 0x08]

/-- The global `slide_quant_mode`, initialised to 0 (disabled) and never
written anywhere in the sketch. -/
def slide_quant_mode : Int := 0

/-- C `abs` on `int`. -/
def cabs (x : Int) : Int := if x < 0 then -x else x

/-- Arduino `constrain(amt, low, high)`. -/
def constrain (amt low high : Int) : Int :=
  if amt < low then low else if amt > high then high else amt

/-- Arduino `map(x, in_min, in_max, out_min, out_max)`:
`(x - in_min) * (out_max - out_min) / (in_max - in_min) + out_min`,
with C (truncating) integer division. -/
def arduinoMap (x in_min in_max out_min out_max : Int) : Int :=
  Int.tdiv ((x - in_min) * (out_max - out_min)) (in_max - in_min) + out_min

/-- `quantizeSlide`: snap a pitch-bend value into one of seven bands. -/
def quantizeSlide (val : Int) : Int :=
  if val ≥ 0 ∧ val ≤ 683 then 0
  else if val ≥ 684 ∧ val ≤ 2048 then 1365
  else if val ≥ 2049 ∧ val ≤ 3413 then 2731
  else if val ≥ 3414 ∧ val ≤ 4779 then 4096
  else if val ≥ 4780 ∧ val ≤ 6144 then 5461
  else if val ≥ 6145 ∧ val ≤ 7509 then 6827
  else if val ≥ 7510 ∧ val ≤ 8192 then 8191
  else 0

/-- `getPitchBendFromLinearPot`, with the `analogRead` of the slide pot and
the `slide_quant_mode` global passed in explicitly. Returns `-1` when the
player is not touching the sensor. -/
def getPitchBendFromLinearPot (quantMode slideVal : Int) : Int :=
  if slideVal > LPOT_NO_TOUCH_VALUE then -1
  else
    let c1 := if slideVal > LPOT_SLIDE_POS_7 then LPOT_SLIDE_POS_7 else slideVal
    let c2 := if c1 < LPOT_SLIDE_POS_1 then LPOT_SLIDE_POS_1 else c1
    let pbVal := arduinoMap c2 LPOT_SLIDE_POS_1 LPOT_SLIDE_POS_7
        PITCH_BEND_NEUTRAL MAX_PITCH_BEND_DOWN
    let pbVal := if pbVal < 0 then 0 else pbVal
    if quantMode ≠ 0 then quantizeSlide pbVal else pbVal

/-- `getPitchBend`, reading the slide sensor. -/
def getPitchBend (slideVal : Int) : Int :=
  getPitchBendFromLinearPot slide_quant_mode slideVal

/-- `!digitalRead(pin)` for an active-low switch: pressed (reads LOW) ↦ 1. -/
def swBit (read : Bool) : Nat := if read then 0 else 1

/-- `getRawOvertoneSwitchValue`: assemble the inverted switch readings into a
4-bit value, switch 0 as the most significant bit. -/
def getRawOvertoneSwitchValue (i : Inputs) : Nat :=
  ((swBit i.ot0 <<< 1 ||| swBit i.ot1) <<< 1 ||| swBit i.ot2) <<< 1 ||| swBit i.ot3

/-- The linear search of `getOvertoneFromOvertoneSwitches`, over the eight
table entries, carrying the current index. (The C loop's bound
`sizeof(overtone_sw_values)` counts bytes, so the source scans past the
8-entry array; the embedding models the search over the array itself, the
only part with defined behaviour.) -/
def findOvertoneIdx : List Nat → Nat → Nat → Int
  | [], _, _ => -1
  | p :: rest, val, i => if val = p then Int.ofNat i else findOvertoneIdx rest val (i + 1)

/-- `getOvertoneFromOvertoneSwitches` on an already-assembled raw switch
value: index of the matching pattern in `overtone_sw_values`, else `-1`. -/
def getOvertoneFromOvertoneSwitches (val : Nat) : Int :=
  findOvertoneIdx overtone_sw_values val 0

/-- `getMIDINote`, with the `currentNote` global and the raw switch value
passed in explicitly: hold `currentNote` on an invalid chord, otherwise look
the overtone up in `overtones`. -/
def getMIDINote (currentNote : Int) (raw : Nat) : Int :=
  let ot := getOvertoneFromOvertoneSwitches raw
  if ot = -1 then currentNote else overtones.getD ot.toNat 0

/-- `getVolumeFromBreathSensor` on the raw `analogRead` value. -/
def getVolumeFromBreathSensor (volRawVal : Int) : Int :=
  if volRawVal < NOTE_ON_VOLUME_THRESHOLD then 0
  else arduinoMap (constrain volRawVal NOTE_ON_VOLUME_THRESHOLD VOLUME_MAX_VALUE)
    NOTE_ON_VOLUME_THRESHOLD VOLUME_MAX_VALUE 0 127

/-- `getVolume`. -/
def getVolume (volRawVal : Int) : Int := getVolumeFromBreathSensor volRawVal

/-- `sendNoteOn(note, vel, chan, debug)` with `debug = false`:
emit `MidiUart.sendNoteOn(chan, note, vel)`. -/
def sendNoteOn (note vel chan : Int) : MidiMessage := .noteOn chan note vel

/-- `sendNoteOff(note, vel, chan, debug)` with `debug = false`:
emit `MidiUart.sendNoteOff(chan, note, vel)`. -/
def sendNoteOff (note vel chan : Int) : MidiMessage := .noteOff chan note vel

/-- `sendPitchBend(pitchBend, debug)`: skip the `-1` (not-touching) sentinel,
and send — updating the `currentPitchBend` global — only when the candidate
differs from the cached value by more than `PB_SEND_THRESHOLD`. -/
def sendPitchBend (s : TromboneState) (pitchBend : Int) :
    TromboneState × List MidiMessage :=
  if pitchBend ≠ -1 then
    if cabs (s.currentPitchBend - pitchBend) > PB_SEND_THRESHOLD then
      ({ s with currentPitchBend := pitchBend }, [.pitchBend pitchBend])
    else (s, [])
  else (s, [])

/-- `sendBreathController(volume, chan, debug)`: send CC 2 — updating the
`currentVolume` global — only when the candidate differs from the cached
value by more than `VOLUME_SEND_THRESHOLD`. -/
def sendBreathController (s : TromboneState) (volume chan : Int) :
    TromboneState × List MidiMessage :=
  if cabs (s.currentVolume - volume) > VOLUME_SEND_THRESHOLD then
    ({ s with currentVolume := volume }, [.cc chan MIDI_BREATH_CC volume])
  else (s, [])

/-- `sendXYControllers(x, y, chan, debug)`: map each axis onto 0–127 and gate
each of CC 16 / CC 17 independently against its cached value. -/
def sendXYControllers (s : TromboneState) (x y chan : Int) :
    TromboneState × List MidiMessage :=
  let mappedXValue := arduinoMap x 0 1024 0 127
  let mappedYValue := arduinoMap y 0 1024 0 127
  let px :=
    if cabs (s.currentXValue - mappedXValue) > VOLUME_SEND_THRESHOLD then
      ({ s with currentXValue := mappedXValue }, [MidiMessage.cc chan X_CC mappedXValue])
    else (s, ([] : List MidiMessage))
  let py :=
    if cabs (px.1.currentYValue - mappedYValue) > VOLUME_SEND_THRESHOLD then
      ({ px.1 with currentYValue := mappedYValue }, [MidiMessage.cc chan Y_CC mappedYValue])
    else (px.1, ([] : List MidiMessage))
  (py.1, px.2 ++ py.2)

/-- `allNotesOff`: note-off for every note 0..127 on channel 1, velocity 0. -/
def allNotesOff : List MidiMessage :=
  (List.range 128).map fun i => sendNoteOff (Int.ofNat i) 0 1

/-- `sendMetaCommand(chan, value)` with `DEBUG = false`:
`MidiUart.sendNoteOn(chan, value, 127)` — a note-on repurposed as a command. -/
def sendMetaCommand (chan : Int) (value : Nat) : MidiMessage :=
  .noteOn chan (Int.ofNat value) 127

/-- The meta-switch block at the top of `loop`: while the meta switch reads
low, capture the raw chord value; on the tick after it goes high again, send
the meta command and leave meta mode. -/
def metaStep (s : TromboneState) (metaSw : Bool) (raw : Nat) :
    TromboneState × List MidiMessage :=
  if metaSw = false then
    ({ s with metaMode := true, metaValue := raw }, [])
  else if s.metaMode = true then
    ({ s with metaMode := false }, [sendMetaCommand 1 s.metaValue])
  else (s, [])

/-- The note-state-machine if/else chain of `loop` (source lines 422–452),
acting on the sampled `pb`, `note`, `volume`, `x`, `y` and `millis()`
values. -/
def noteMachineStep (s : TromboneState) (pb note volume x y now : Int) :
    TromboneState × List MidiMessage :=
  if s.currentNote ≠ -1 ∧ volume = 0 then
    ({ s with currentNote := -1 }, [sendNoteOff s.currentNote 0 0])
  else if s.currentNote = -1 ∧ volume ≠ 0 ∧ note ≠ -1 then
    let r1 := sendBreathController s volume 0
    let r2 := sendPitchBend r1.1 pb
    let r3 := sendXYControllers r2.1 x y 0
    ({ r3.1 with currentNote := note },
      r1.2 ++ r2.2 ++ r3.2 ++ [sendNoteOn note 127 0])
  else if s.currentNote ≠ -1 ∧ note ≠ s.currentNote then
    let r1 := sendPitchBend s pb
    let r2 := sendBreathController r1.1 volume 0
    let r3 := sendXYControllers r2.1 x y 0
    ({ r3.1 with currentNote := note },
      sendNoteOff s.currentNote 0 0 :: (r1.2 ++ r2.2 ++ r3.2 ++ [sendNoteOn note 127 0]))
  else if s.currentNote ≠ -1 then
    if now > s.ccSendTime + MIN_CC_INTERVAL then
      let r1 := sendPitchBend s pb
      let r2 := sendBreathController r1.1 volume 0
      let r3 := sendXYControllers r2.1 x y 0
      ({ r3.1 with ccSendTime := now }, r1.2 ++ r2.2 ++ r3.2)
    else (s, [])
  else (s, [])

/-- One tick of `loop`: the panic check, the meta-switch block, the sensor
sampling, then the note state machine. Returns the new values of the mutable
globals and the MIDI messages emitted during the tick, in emission order.
(The source reads `millis()` twice in the rate-limited branch; both reads are
modelled as the tick's single `now` value.) -/
def loop (s : TromboneState) (i : Inputs) : TromboneState × List MidiMessage :=
  let panicMsgs := if i.panicSw = false then allNotesOff else []
  let raw := getRawOvertoneSwitchValue i
  let m := metaStep s i.metaSw raw
  let pb := getPitchBend i.slide
  let note := getMIDINote m.1.currentNote raw
  let volume := getVolume i.breath
  let n := noteMachineStep m.1 pb note volume i.x i.y i.now
  (n.1, panicMsgs ++ m.2 ++ n.2)

/-- The initial values of the mutable globals. -/
def initialState : TromboneState :=
  { currentNote := -1
    currentPitchBend := PITCH_BEND_NEUTRAL
    currentVolume := 0
    currentXValue := 0
    currentYValue := 0
    metaMode := false
    metaValue := 0
    ccSendTime := 0 }

/-! ## Helper predicates and basic facts -/

/-- Is `m` a note-on on channel `c`? -/
def isChanNoteOn (c : Int) : MidiMessage → Bool
  | .noteOn ch _ _ => decide (ch = c)
  | _ => false

/-- Is `m` a note-off (on any channel)? -/
def isNoteOffMsg : MidiMessage → Bool
  | .noteOff _ _ _ => true
  | _ => false

/-- Is `m` a control-change or pitch-bend message? -/
def isCCorPB : MidiMessage → Bool
  | .cc _ _ _ => true
  | .pitchBend _ => true
  | _ => false

theorem isCCorPB_not_note {m : MidiMessage} (h : isCCorPB m = true) :
    isNoteOffMsg m = false ∧ ∀ c, isChanNoteOn c m = false := by
  cases m <;> simp_all [isCCorPB, isNoteOffMsg, isChanNoteOn]

theorem PITCH_BEND_NEUTRAL_eq : PITCH_BEND_NEUTRAL = 8191 := by decide

/-- The raw overtone switch value is a 4-bit quantity. -/
theorem getRawOvertoneSwitchValue_lt_16 (i : Inputs) : getRawOvertoneSwitchValue i < 16 := by
  obtain ⟨o0, o1, o2, o3, ms, ps, sl, br, xr, yr, nw⟩ := i
  cases o0 <;> cases o1 <;> cases o2 <;> cases o3 <;>
    simp [getRawOvertoneSwitchValue, swBit]

/-- Any 4-bit value either misses the pattern table (and decodes to `-1`),
or decodes to an index 0..7 whose overtone is a real note (`≠ -1`). -/
theorem decode_facts : ∀ r : Nat, r < 16 →
    (getOvertoneFromOvertoneSwitches r = -1 ∧ r ∉ overtone_sw_values) ∨
    (0 ≤ getOvertoneFromOvertoneSwitches r ∧ getOvertoneFromOvertoneSwitches r ≤ 7 ∧
      overtones.getD (getOvertoneFromOvertoneSwitches r).toNat 0 ≠ -1) := by decide

theorem getMIDINote_nomatch (cn : Int) (r : Nat)
    (h : getOvertoneFromOvertoneSwitches r = -1) : getMIDINote cn r = cn := by
  unfold getMIDINote
  simp [h]

theorem getMIDINote_match (cn : Int) (r : Nat)
    (h : getOvertoneFromOvertoneSwitches r ≠ -1) :
    getMIDINote cn r = overtones.getD (getOvertoneFromOvertoneSwitches r).toNat 0 := by
  unfold getMIDINote
  simp [h]

theorem getMIDINote_ne (cn : Int) (r : Nat) (hr : r < 16) (hcn : cn ≠ -1) :
    getMIDINote cn r ≠ -1 := by
  rcases decode_facts r hr with ⟨h, -⟩ | ⟨-, -, h⟩
  · rw [getMIDINote_nomatch cn r h]; exact hcn
  · by_cases hd : getOvertoneFromOvertoneSwitches r = -1
    · rw [getMIDINote_nomatch cn r hd]; exact hcn
    · rw [getMIDINote_match cn r hd]; exact h

/-! ## Characterisations of the gated send helpers -/

theorem sendPitchBend_spec (s : TromboneState) (v : Int) :
    ((v = -1 ∨ cabs (s.currentPitchBend - v) ≤ PB_SEND_THRESHOLD) ∧
      sendPitchBend s v = (s, [])) ∨
    (v ≠ -1 ∧ cabs (s.currentPitchBend - v) > PB_SEND_THRESHOLD ∧
      sendPitchBend s v = ({ s with currentPitchBend := v }, [.pitchBend v])) := by
  unfold sendPitchBend
  split_ifs with h1 h2 <;> simp_all

theorem sendBreathController_spec (s : TromboneState) (v c : Int) :
    (cabs (s.currentVolume - v) ≤ VOLUME_SEND_THRESHOLD ∧
      sendBreathController s v c = (s, [])) ∨
    (cabs (s.currentVolume - v) > VOLUME_SEND_THRESHOLD ∧
      sendBreathController s v c = ({ s with currentVolume := v }, [.cc c MIDI_BREATH_CC v])) := by
  unfold sendBreathController
  split_ifs with h1 <;> simp_all

theorem sendXYControllers_spec (s : TromboneState) (x y c : Int) :
    (cabs (s.currentXValue - arduinoMap x 0 1024 0 127) ≤ VOLUME_SEND_THRESHOLD ∧
      cabs (s.currentYValue - arduinoMap y 0 1024 0 127) ≤ VOLUME_SEND_THRESHOLD ∧
      sendXYControllers s x y c = (s, [])) ∨
    (cabs (s.currentXValue - arduinoMap x 0 1024 0 127) > VOLUME_SEND_THRESHOLD ∧
      cabs (s.currentYValue - arduinoMap y 0 1024 0 127) ≤ VOLUME_SEND_THRESHOLD ∧
      sendXYControllers s x y c = ({ s with currentXValue := arduinoMap x 0 1024 0 127 },
        [.cc c X_CC (arduinoMap x 0 1024 0 127)])) ∨
    (cabs (s.currentXValue - arduinoMap x 0 1024 0 127) ≤ VOLUME_SEND_THRESHOLD ∧
      cabs (s.currentYValue - arduinoMap y 0 1024 0 127) > VOLUME_SEND_THRESHOLD ∧
      sendXYControllers s x y c = ({ s with currentYValue := arduinoMap y 0 1024 0 127 },
        [.cc c Y_CC (arduinoMap y 0 1024 0 127)])) ∨
    (cabs (s.currentXValue - arduinoMap x 0 1024 0 127) > VOLUME_SEND_THRESHOLD ∧
      cabs (s.currentYValue - arduinoMap y 0 1024 0 127) > VOLUME_SEND_THRESHOLD ∧
      sendXYControllers s x y c = ({ s with
          currentXValue := arduinoMap x 0 1024 0 127,
          currentYValue := arduinoMap y 0 1024 0 127 },
        [.cc c X_CC (arduinoMap x 0 1024 0 127), .cc c Y_CC (arduinoMap y 0 1024 0 127)])) := by
  unfold sendXYControllers
  dsimp only
  split_ifs with h1 h2 h3 <;> simp_all

/-- The gated senders emit only control-change / pitch-bend messages. -/
theorem send_msgs_ccpb (s : TromboneState) (v x y c : Int) :
    (∀ m ∈ (sendPitchBend s v).2, isCCorPB m = true) ∧
    (∀ m ∈ (sendBreathController s v c).2, isCCorPB m = true) ∧
    (∀ m ∈ (sendXYControllers s x y c).2, isCCorPB m = true) := by
  refine ⟨?_, ?_, ?_⟩
  · rcases sendPitchBend_spec s v with ⟨-, h⟩ | ⟨-, -, h⟩ <;> rw [h] <;> simp [isCCorPB]
  · rcases sendBreathController_spec s v c with ⟨-, h⟩ | ⟨-, h⟩ <;> rw [h] <;> simp [isCCorPB]
  · rcases sendXYControllers_spec s x y c with ⟨-, -, h⟩ | ⟨-, -, h⟩ | ⟨-, -, h⟩ | ⟨-, -, h⟩ <;>
      rw [h] <;> simp [isCCorPB]

/-- The gated senders never change `currentNote`, the meta state or the
rate-limit timestamp. -/
theorem send_frame (s : TromboneState) (v x y c : Int) :
    ((sendPitchBend s v).1.currentNote = s.currentNote ∧
      (sendPitchBend s v).1.metaMode = s.metaMode ∧
      (sendPitchBend s v).1.metaValue = s.metaValue ∧
      (sendPitchBend s v).1.ccSendTime = s.ccSendTime) ∧
    ((sendBreathController s v c).1.currentNote = s.currentNote ∧
      (sendBreathController s v c).1.metaMode = s.metaMode ∧
      (sendBreathController s v c).1.metaValue = s.metaValue ∧
      (sendBreathController s v c).1.ccSendTime = s.ccSendTime) ∧
    ((sendXYControllers s x y c).1.currentNote = s.currentNote ∧
      (sendXYControllers s x y c).1.metaMode = s.metaMode ∧
      (sendXYControllers s x y c).1.metaValue = s.metaValue ∧
      (sendXYControllers s x y c).1.ccSendTime = s.ccSendTime) := by
  refine ⟨?_, ?_, ?_⟩
  · rcases sendPitchBend_spec s v with ⟨-, h⟩ | ⟨-, -, h⟩ <;> rw [h] <;> simp
  · rcases sendBreathController_spec s v c with ⟨-, h⟩ | ⟨-, h⟩ <;> rw [h] <;> simp
  · rcases sendXYControllers_spec s x y c with ⟨-, -, h⟩ | ⟨-, -, h⟩ | ⟨-, -, h⟩ | ⟨-, -, h⟩ <;>
      rw [h] <;> simp

/-! ## Characterisations of the meta block and the note state machine -/

theorem metaStep_spec (s : TromboneState) (b : Bool) (raw : Nat) :
    (b = false ∧ metaStep s b raw = ({ s with metaMode := true, metaValue := raw }, [])) ∨
    (b = true ∧ s.metaMode = true ∧
      metaStep s b raw = ({ s with metaMode := false }, [sendMetaCommand 1 s.metaValue])) ∨
    (b = true ∧ s.metaMode = false ∧ metaStep s b raw = (s, [])) := by
  unfold metaStep
  cases b <;> cases hm : s.metaMode <;> simp_all

/-- The note state machine never touches the meta-mode state. -/
theorem noteMachineStep_meta (s : TromboneState) (pb note volume x y now : Int) :
    (noteMachineStep s pb note volume x y now).1.metaMode = s.metaMode ∧
    (noteMachineStep s pb note volume x y now).1.metaValue = s.metaValue := by
  unfold noteMachineStep
  dsimp only
  split_ifs <;>
    simp [(send_frame _ pb x y 0).1.2.1, (send_frame _ pb x y 0).1.2.2.1,
      (send_frame _ volume x y 0).2.1.2.1, (send_frame _ volume x y 0).2.1.2.2.1,
      (send_frame _ pb x y 0).2.2.2.1, (send_frame _ pb x y 0).2.2.2.2.1]

/-- Every message the note state machine emits is a control-change,
pitch-bend, or a note-on/note-off on channel 0 — never a note-on on
channel 1 (the command channel). -/
theorem noteMachineStep_no_cmd (s : TromboneState) (pb note volume x y now : Int) :
    ∀ m ∈ (noteMachineStep s pb note volume x y now).2, isChanNoteOn 1 m = false := by
  have hPB : ∀ (t : TromboneState) (v : Int),
      ∀ m ∈ (sendPitchBend t v).2, isChanNoteOn 1 m = false :=
    fun t v m hm => (isCCorPB_not_note ((send_msgs_ccpb t v 0 0 0).1 m hm)).2 1
  have hBC : ∀ (t : TromboneState) (v : Int),
      ∀ m ∈ (sendBreathController t v 0).2, isChanNoteOn 1 m = false :=
    fun t v m hm => (isCCorPB_not_note ((send_msgs_ccpb t v 0 0 0).2.1 m hm)).2 1
  have hXY : ∀ (t : TromboneState),
      ∀ m ∈ (sendXYControllers t x y 0).2, isChanNoteOn 1 m = false :=
    fun t m hm => (isCCorPB_not_note ((send_msgs_ccpb t 0 x y 0).2.2 m hm)).2 1
  unfold noteMachineStep
  dsimp only
  split_ifs with b1 b2 b3 b4
  · intro m hm
    simp only [List.mem_singleton, List.mem_cons, List.not_mem_nil, or_false] at hm
    subst hm; rfl
  · intro m hm
    simp only [List.mem_append, List.mem_singleton, List.mem_cons,
      List.not_mem_nil, or_false] at hm
    rcases hm with ((hm | hm) | hm) | hm
    · exact hBC _ _ m hm
    · exact hPB _ _ m hm
    · exact hXY _ m hm
    · subst hm; rfl
  · intro m hm
    simp only [List.mem_cons, List.mem_append, List.mem_singleton,
      List.not_mem_nil, or_false] at hm
    rcases hm with hm | ((hm | hm) | hm) | hm
    · subst hm; rfl
    · exact hPB _ _ m hm
    · exact hBC _ _ m hm
    · exact hXY _ m hm
    · subst hm; rfl
  · intro m hm
    simp only [List.mem_append] at hm
    rcases hm with (hm | hm) | hm
    · exact hPB _ _ m hm
    · exact hBC _ _ m hm
    · exact hXY _ m hm
  · intro m hm
    simp at hm
  · intro m hm
    simp at hm

/-- Breath stopped while a note is sounding: the machine emits exactly the
note-off for the current note (channel 0, velocity 0) and clears it. -/
theorem noteMachineStep_noteOff (s : TromboneState) (pb note volume x y now : Int)
    (hn : s.currentNote ≠ -1) (hv : volume = 0) :
    noteMachineStep s pb note volume x y now =
      ({ s with currentNote := -1 }, [sendNoteOff s.currentNote 0 0]) := by
  unfold noteMachineStep
  dsimp only
  rw [if_pos ⟨hn, hv⟩]

/-- Silent, with breath and a valid requested note: the machine starts it. -/
theorem noteMachineStep_noteOn (s : TromboneState) (pb note volume x y now : Int)
    (h1 : s.currentNote = -1) (h2 : volume ≠ 0) (h3 : note ≠ -1) :
    (noteMachineStep s pb note volume x y now).1.currentNote = note := by
  unfold noteMachineStep
  dsimp only
  split_ifs with b1 b2 b3 b4
  · exact absurd h1 b1.1
  · simp
  · exact absurd h1 b3.1
  · exact absurd h1 b4
  · exact absurd h1 b4
  · exact absurd ⟨h1, h2, h3⟩ b2

/-- Sounding, breath on, and the requested note equals the current note:
the machine holds the note and emits only control-change/pitch-bend data. -/
theorem noteMachineStep_hold (s : TromboneState) (pb volume x y now : Int)
    (hn : s.currentNote ≠ -1) (hv : volume ≠ 0) :
    (noteMachineStep s pb s.currentNote volume x y now).1.currentNote = s.currentNote ∧
    ∀ m ∈ (noteMachineStep s pb s.currentNote volume x y now).2, isCCorPB m = true := by
  unfold noteMachineStep
  dsimp only
  split_ifs with b1 b2 b3 b4
  · exact absurd b1.2 hv
  · exact absurd b2.1 hn
  · exact absurd rfl b3.2
  · constructor
    · have f1 := (send_frame s pb x y 0).1.1
      have f2 := (send_frame (sendPitchBend s pb).1 volume x y 0).2.1.1
      have f3 := (send_frame (sendBreathController (sendPitchBend s pb).1 volume 0).1
        0 x y 0).2.2.1
      simp [f3, f2, f1]
    · intro m hm
      simp only [List.mem_append] at hm
      rcases hm with (hm | hm) | hm
      · exact (send_msgs_ccpb s pb x y 0).1 m hm
      · exact (send_msgs_ccpb _ volume x y 0).2.1 m hm
      · exact (send_msgs_ccpb _ 0 x y 0).2.2 m hm
  · exact ⟨rfl, by simp⟩

/-- A sounding note whose requested note is real can only end (become `-1`)
when the mapped volume is 0. -/
theorem noteMachineStep_end_only (s : TromboneState) (pb note volume x y now : Int)
    (hn : s.currentNote ≠ -1) (hnote : note ≠ -1)
    (h : (noteMachineStep s pb note volume x y now).1.currentNote = -1) : volume = 0 := by
  unfold noteMachineStep at h
  dsimp only at h
  split_ifs at h with b1 b2 b3 b4
  · exact b1.2
  · exact absurd b2.1 hn
  · simp at h
    exact absurd h hnote
  · have f1 := (send_frame s pb x y 0).1.1
    have f2 := (send_frame (sendPitchBend s pb).1 volume x y 0).2.1.1
    have f3 := (send_frame (sendBreathController (sendPitchBend s pb).1 volume 0).1
      0 x y 0).2.2.1
    simp [f3, f2, f1] at h
    exact absurd h hn
  · exact absurd h hn

/-! ## Claim theorems -/

/-- C7: `quantizeSlide` is idempotent on every integer input; every input in
`[0, 8192]` maps to one of the seven band outputs
`{0, 1365, 2731, 4096, 5461, 6827, 8191}`; any input outside `[0, 8192]`
maps to 0. -/
theorem C7_quantizeSlide_idempotent_and_bands (x : Int) :
    quantizeSlide (quantizeSlide x) = quantizeSlide x
    ∧ (0 ≤ x ∧ x ≤ 8192 →
        quantizeSlide x = 0 ∨ quantizeSlide x = 1365 ∨ quantizeSlide x = 2731 ∨
        quantizeSlide x = 4096 ∨ quantizeSlide x = 5461 ∨ quantizeSlide x = 6827 ∨
        quantizeSlide x = 8191)
    ∧ (¬(0 ≤ x ∧ x ≤ 8192) → quantizeSlide x = 0) := by
  have hb : quantizeSlide x = 0 ∨ quantizeSlide x = 1365 ∨ quantizeSlide x = 2731 ∨
      quantizeSlide x = 4096 ∨ quantizeSlide x = 5461 ∨ quantizeSlide x = 6827 ∨
      quantizeSlide x = 8191 := by
    unfold quantizeSlide
    split_ifs <;> omega
  refine ⟨?_, fun _ => hb, fun h => ?_⟩
  · rcases hb with h | h | h | h | h | h | h <;> rw [h] <;> decide
  · unfold quantizeSlide
    split_ifs <;> omega

/-- C7 witness: the band membership and out-of-range conjuncts at
concrete inputs. -/
theorem C7_witness :
    (quantizeSlide 1000 = 0 ∨ quantizeSlide 1000 = 1365 ∨ quantizeSlide 1000 = 2731 ∨
      quantizeSlide 1000 = 4096 ∨ quantizeSlide 1000 = 5461 ∨ quantizeSlide 1000 = 6827 ∨
      quantizeSlide 1000 = 8191)
    ∧ quantizeSlide 9000 = 0 :=
  ⟨(C7_quantizeSlide_idempotent_and_bands 1000).2.1 (by decide),
    (C7_quantizeSlide_idempotent_and_bands 9000).2.2 (by decide)⟩

/-- C4 counterexample: `decode(0b1111)` is not the overtone-5 index (5);
`0x0f` sits at position 4 of `overtone_sw_values`, so the decoder returns 4,
the overtone-4 index. -/
theorem C4_counterexample :
    getOvertoneFromOvertoneSwitches 0xf ≠ 5 ∧ getOvertoneFromOvertoneSwitches 0xf = 4 := by
  decide

/-- C4 (amended): `decode(0b0000) = 0` (fundamental), `decode(0b0001) = 1`
(overtone 1), `decode(0b1111) = 4` (the fifth table entry, the overtone-4
index), and every 4-bit pattern absent from the 8-entry pattern table —
e.g. `0b0101` — decodes to `-1` (no match). -/
theorem C4_decode_table (p : Nat) (hp : p < 16) (habs : p ∉ overtone_sw_values) :
    getOvertoneFromOvertoneSwitches 0x0 = 0
    ∧ getOvertoneFromOvertoneSwitches 0x1 = 1
    ∧ getOvertoneFromOvertoneSwitches 0xf = 4
    ∧ getOvertoneFromOvertoneSwitches p = -1 := by
  have h : ∀ q : Nat, q < 16 → q ∉ overtone_sw_values →
      getOvertoneFromOvertoneSwitches q = -1 := by decide
  exact ⟨by decide, by decide, by decide, h p hp habs⟩

/-- C4 witness: the absent pattern `0b0101` decodes to `-1`. -/
theorem C4_witness : getOvertoneFromOvertoneSwitches 0x5 = -1 :=
  (C4_decode_table 0x5 (by decide) (by decide)).2.2.2

/-- On the clamped slide range, the Arduino `map` onto the pitch-bend range
is antitone. -/
theorem arduinoMap_slide_antitone {a b : Int} (ha : 144 ≤ a) (hab : a ≤ b) (_hb : b ≤ 350) :
    arduinoMap b 144 350 8191 0 ≤ arduinoMap a 144 350 8191 0 := by
  unfold arduinoMap
  have h1 : ∀ z : Int, (z - 144) * ((0 : Int) - 8191) = -((z - 144) * 8191) :=
    fun z => by ring
  have h2 : (350 : Int) - 144 = 206 := by norm_num
  rw [h1, h1, h2, Int.neg_tdiv, Int.neg_tdiv]
  have e : ∀ z : Int, 144 ≤ z → ((z - 144) * 8191).tdiv 206 = ((z - 144) * 8191) / 206 :=
    fun z hz => Int.tdiv_eq_ediv (by nlinarith) (by norm_num)
  rw [e a ha, e b (le_trans ha hab)]
  have hm : ((a - 144) * 8191) / 206 ≤ ((b - 144) * 8191) / 206 :=
    Int.ediv_le_ediv (by norm_num) (by nlinarith)
  omega

/-- For a touching reading, `getPitchBendFromLinearPot` with quantization
disabled is the clamped, mapped, non-negative value. -/
theorem getPitchBendFromLinearPot_touch (r : Int) (hr : ¬r > LPOT_NO_TOUCH_VALUE) :
    getPitchBendFromLinearPot 0 r =
      (if arduinoMap (if (if r > 350 then (350 : Int) else r) < 144 then (144 : Int)
            else if r > 350 then 350 else r) 144 350 8191 0 < 0 then 0
        else arduinoMap (if (if r > 350 then (350 : Int) else r) < 144 then (144 : Int)
            else if r > 350 then 350 else r) 144 350 8191 0) := by
  simp only [getPitchBendFromLinearPot, LPOT_NO_TOUCH_VALUE, LPOT_SLIDE_POS_1,
    LPOT_SLIDE_POS_7, MAX_PITCH_BEND_DOWN, PITCH_BEND_NEUTRAL_eq] at *
  rw [if_neg hr]
  simp

/-- On the clamped slide range, the mapped-then-floored pitch-bend value is
antitone. -/
theorem clampedBend_antitone (c1 c2 : Int) (h1 : 144 ≤ c1) (h2 : c1 ≤ c2) (h3 : c2 ≤ 350) :
    (if arduinoMap c2 144 350 8191 0 < 0 then 0 else arduinoMap c2 144 350 8191 0) ≤
      (if arduinoMap c1 144 350 8191 0 < 0 then 0 else arduinoMap c1 144 350 8191 0) := by
  have key := arduinoMap_slide_antitone h1 h2 h3
  split_ifs <;> omega

/-- C8: with quantization disabled, for raw slide readings at or below the
no-touch threshold the mapped pitch-bend value is monotonically
non-increasing in the raw reading; reading 144 (1st position) maps to the
neutral bend value, and reading 350 (7th position) maps to 0. -/
theorem C8_slide_mapping (r1 r2 : Int) (h12 : r1 ≤ r2) (h2 : r2 ≤ LPOT_NO_TOUCH_VALUE) :
    getPitchBendFromLinearPot 0 r2 ≤ getPitchBendFromLinearPot 0 r1
    ∧ getPitchBendFromLinearPot 0 LPOT_SLIDE_POS_1 = PITCH_BEND_NEUTRAL
    ∧ getPitchBendFromLinearPot 0 LPOT_SLIDE_POS_7 = 0 := by
  refine ⟨?_, by decide, by decide⟩
  have hno : (LPOT_NO_TOUCH_VALUE : Int) = 1010 := by decide
  rw [getPitchBendFromLinearPot_touch r1 (by omega),
    getPitchBendFromLinearPot_touch r2 (by omega)]
  have hC : ∀ r : Int, 144 ≤ (if (if r > 350 then (350 : Int) else r) < 144 then (144 : Int)
      else if r > 350 then 350 else r) ∧
      (if (if r > 350 then (350 : Int) else r) < 144 then (144 : Int)
        else if r > 350 then 350 else r) ≤ 350 := by
    intro r
    constructor <;> split_ifs <;> omega
  have hCm : (if (if r1 > 350 then (350 : Int) else r1) < 144 then (144 : Int)
      else if r1 > 350 then 350 else r1) ≤
      (if (if r2 > 350 then (350 : Int) else r2) < 144 then (144 : Int)
        else if r2 > 350 then 350 else r2) := by
    split_ifs <;> omega
  exact clampedBend_antitone _ _ (hC r1).1 hCm (hC r2).2

/-- C8 witness: the monotonicity conjunct at concrete readings 200 ≤ 300. -/
theorem C8_witness :
    getPitchBendFromLinearPot 0 300 ≤ getPitchBendFromLinearPot 0 200
    ∧ getPitchBendFromLinearPot 0 LPOT_SLIDE_POS_1 = PITCH_BEND_NEUTRAL
    ∧ getPitchBendFromLinearPot 0 LPOT_SLIDE_POS_7 = 0 :=
  C8_slide_mapping 200 300 (by decide) (by decide)

/-- The meta block never touches the note, the caches or the timestamp. -/
theorem metaStep_frame (s : TromboneState) (b : Bool) (raw : Nat) :
    (metaStep s b raw).1.currentNote = s.currentNote
    ∧ (metaStep s b raw).1.currentPitchBend = s.currentPitchBend
    ∧ (metaStep s b raw).1.currentVolume = s.currentVolume
    ∧ (metaStep s b raw).1.currentXValue = s.currentXValue
    ∧ (metaStep s b raw).1.currentYValue = s.currentYValue
    ∧ (metaStep s b raw).1.ccSendTime = s.ccSendTime := by
  unfold metaStep
  split_ifs <;> simp

/-- The meta block emits nothing or exactly the one meta command. -/
theorem metaStep_msgs (s : TromboneState) (b : Bool) (raw : Nat) :
    (metaStep s b raw).2 = [] ∨ (metaStep s b raw).2 = [sendMetaCommand 1 s.metaValue] := by
  unfold metaStep
  split_ifs <;> simp

/-- Inputs of the C1 scenario: panic pressed (reads low), meta not pressed,
no overtone switch pressed (chord `0b0000`), full breath, slide untouched. -/
def panicTickInputs : Inputs :=
  { ot0 := true, ot1 := true, ot2 := true, ot3 := true, metaSw := true, panicSw := false,
    slide := 1011, breath := 500, x := 0, y := 0, now := 0 }

/-- C1 counterexample: on a tick with panic active, the program also emits a
note-on (the tick is evaluated past the panic flush): from the initial state
with full breath and chord `0b0000` the tick contains `noteOn 0 48 127` and
has 130 messages, not 128. -/
theorem C1_counterexample :
    panicTickInputs.panicSw = false
    ∧ MidiMessage.noteOn 0 48 127 ∈ (loop initialState panicTickInputs).2
    ∧ (loop initialState panicTickInputs).2.length = 130 := by decide

/-- C1 (amended): whenever the panic input is active at the start of a tick,
the tick's MIDI output begins with note-off messages for all 128 note
numbers 0..127 on channel 1 at velocity 0, exactly one per note number — but
the rest of the tick (meta handling and the note state machine) is still
evaluated and may append further messages. -/
theorem C1_panic_all_notes_off (s : TromboneState) (i : Inputs) (h : i.panicSw = false) :
    ∃ rest, (loop s i).2 = allNotesOff ++ rest
    ∧ allNotesOff = (List.range 128).map fun n => MidiMessage.noteOff 1 (Int.ofNat n) 0 := by
  unfold loop
  dsimp only
  rw [h, if_pos rfl]
  exact ⟨_, List.append_assoc _ _ _, by simp [allNotesOff, sendNoteOff]⟩

/-- C1 witness: the amended panic property at the concrete panic tick. -/
theorem C1_witness :
    ∃ rest, (loop initialState panicTickInputs).2 = allNotesOff ++ rest
    ∧ allNotesOff = (List.range 128).map fun n => MidiMessage.noteOff 1 (Int.ofNat n) 0 :=
  C1_panic_all_notes_off initialState panicTickInputs rfl

/-- Inputs with the meta switch held, chord `0b0000`, full breath. -/
def metaHeldInputsA : Inputs :=
  { ot0 := true, ot1 := true, ot2 := true, ot3 := true, metaSw := false, panicSw := true,
    slide := 1011, breath := 500, x := 0, y := 0, now := 0 }

/-- The same tick inputs with only the chord changed to `0b0001`. -/
def metaHeldInputsB : Inputs := { metaHeldInputsA with ot3 := false }

/-- C2 counterexample: while the meta switch is held, two ticks that differ
only in the chord input select different notes (48 vs 55) and emit a
note-on — chord input still drives note selection during meta capture. -/
theorem C2_counterexample :
    metaHeldInputsA.metaSw = false
    ∧ metaHeldInputsB = { metaHeldInputsA with ot3 := false }
    ∧ (loop initialState metaHeldInputsA).1.currentNote = 48
    ∧ (loop initialState metaHeldInputsB).1.currentNote = 55
    ∧ MidiMessage.noteOn 0 48 127 ∈ (loop initialState metaHeldInputsA).2 := by decide

/-- C2 (amended): while the meta switch is held, the handler records the raw
chord pattern into `metaValue` and meta mode stays engaged — but the chord
input is nonetheless still used by the note state machine in the same tick:
from silence, with breath and a decodable chord, the tick starts the note
selected by the chord. -/
theorem C2_meta_capture_and_note_selection (s : TromboneState) (i : Inputs)
    (h : i.metaSw = false) :
    (loop s i).1.metaMode = true
    ∧ (loop s i).1.metaValue = getRawOvertoneSwitchValue i
    ∧ (s.currentNote = -1 → getVolume i.breath ≠ 0 →
        getOvertoneFromOvertoneSwitches (getRawOvertoneSwitchValue i) ≠ -1 →
        (loop s i).1.currentNote =
          overtones.getD (getOvertoneFromOvertoneSwitches (getRawOvertoneSwitchValue i)).toNat 0) := by
  have hms : metaStep s i.metaSw (getRawOvertoneSwitchValue i) =
      ({ s with metaMode := true, metaValue := getRawOvertoneSwitchValue i }, []) := by
    rcases metaStep_spec s i.metaSw (getRawOvertoneSwitchValue i) with
      ⟨-, he⟩ | ⟨hb, -, -⟩ | ⟨hb, -, -⟩
    · exact he
    · simp [h] at hb
    · simp [h] at hb
  unfold loop
  dsimp only
  rw [hms]
  dsimp only
  refine ⟨?_, ?_, ?_⟩
  · rw [(noteMachineStep_meta _ _ _ _ _ _ _).1]
  · rw [(noteMachineStep_meta _ _ _ _ _ _ _).2]
  · intro hcn hv hd
    rw [getMIDINote_match _ _ hd]
    have hne : overtones.getD (getOvertoneFromOvertoneSwitches
        (getRawOvertoneSwitchValue i)).toNat 0 ≠ -1 := by
      rcases decode_facts (getRawOvertoneSwitchValue i) (getRawOvertoneSwitchValue_lt_16 i) with
        ⟨hna, -⟩ | ⟨-, -, hne⟩
      · exact absurd hna hd
      · exact hne
    exact noteMachineStep_noteOn _ _ _ _ _ _ _ (by simpa using hcn) hv hne

/-- C2 witness: the amended property at a concrete meta-held tick. -/
theorem C2_witness :
    (loop initialState metaHeldInputsA).1.metaMode = true
    ∧ (loop initialState metaHeldInputsA).1.metaValue =
        getRawOvertoneSwitchValue metaHeldInputsA
    ∧ (loop initialState metaHeldInputsA).1.currentNote =
        overtones.getD (getOvertoneFromOvertoneSwitches
          (getRawOvertoneSwitchValue metaHeldInputsA)).toNat 0 := by
  have h := C2_meta_capture_and_note_selection initialState metaHeldInputsA rfl
  exact ⟨h.1, h.2.1, h.2.2 rfl (by decide) (by decide)⟩

/-- State with meta mode engaged and a captured chord value of 5. -/
def metaReleaseState : TromboneState := { initialState with metaMode := true, metaValue := 5 }

/-- Inputs of the release tick: meta switch released, everything else idle. -/
def metaReleaseInputs : Inputs :=
  { ot0 := true, ot1 := true, ot2 := true, ot3 := true, metaSw := true, panicSw := true,
    slide := 1011, breath := 0, x := 0, y := 0, now := 0 }

/-- C3 counterexample: on the release tick the captured chord value is NOT
cleared — `metaValue` still holds 5 after the command is sent. -/
theorem C3_counterexample :
    metaReleaseState.metaMode = true ∧ metaReleaseInputs.metaSw = true
    ∧ (loop metaReleaseState metaReleaseInputs).1.metaValue = 5
    ∧ (loop metaReleaseState metaReleaseInputs).1.metaValue ≠ 0 := by decide

/-- C3 (amended): on the tick where the meta switch goes from held to
released, exactly one command event — a note-on on channel 1 carrying the
captured chord value, velocity 127 — is emitted, and meta mode returns to
inactive; the captured chord value is retained, not cleared. -/
theorem C3_meta_release (s : TromboneState) (i : Inputs)
    (hm : s.metaMode = true) (hr : i.metaSw = true) :
    (loop s i).2.filter (isChanNoteOn 1) = [MidiMessage.noteOn 1 (Int.ofNat s.metaValue) 127]
    ∧ (loop s i).1.metaMode = false
    ∧ (loop s i).1.metaValue = s.metaValue := by
  have hms : metaStep s i.metaSw (getRawOvertoneSwitchValue i) =
      ({ s with metaMode := false }, [sendMetaCommand 1 s.metaValue]) := by
    rcases metaStep_spec s i.metaSw (getRawOvertoneSwitchValue i) with
      ⟨hb, -⟩ | ⟨-, -, he⟩ | ⟨-, hmm, -⟩
    · simp [hr] at hb
    · exact he
    · simp [hm] at hmm
  unfold loop
  dsimp only
  rw [hms]
  dsimp only
  refine ⟨?_, ?_, ?_⟩
  · rw [List.filter_append, List.filter_append]
    have hpanic : (if i.panicSw = false then allNotesOff else []).filter (isChanNoteOn 1) = [] := by
      split_ifs
      · decide
      · rfl
    have hmachine : (noteMachineStep { s with metaMode := false }
        (getPitchBend i.slide)
        (getMIDINote ({ s with metaMode := false } : TromboneState).currentNote
          (getRawOvertoneSwitchValue i))
        (getVolume i.breath) i.x i.y i.now).2.filter (isChanNoteOn 1) = [] :=
      List.filter_eq_nil_iff.mpr fun m hmem => by
        simp [noteMachineStep_no_cmd _ _ _ _ _ _ _ m hmem]
    rw [hpanic, hmachine]
    simp [sendMetaCommand, isChanNoteOn]
  · rw [(noteMachineStep_meta _ _ _ _ _ _ _).1]
  · rw [(noteMachineStep_meta _ _ _ _ _ _ _).2]

/-- C3 witness: the amended release property at the concrete release tick. -/
theorem C3_witness :
    (loop metaReleaseState metaReleaseInputs).2.filter (isChanNoteOn 1) =
      [MidiMessage.noteOn 1 (Int.ofNat metaReleaseState.metaValue) 127]
    ∧ (loop metaReleaseState metaReleaseInputs).1.metaMode = false
    ∧ (loop metaReleaseState metaReleaseInputs).1.metaValue = metaReleaseState.metaValue :=
  C3_meta_release metaReleaseState metaReleaseInputs rfl rfl

/-- C5 (confirmed): while a note is sounding and the chord pattern decodes to
NoMatch, on a panic-free tick with breath still on, the machine holds the
note: the state keeps the same `currentNote` and no note-off and no
channel-0 note-on is emitted (the only possible note-on is a channel-1 meta
command); moreover, on any tick a sounding note clears only when the mapped
volume is 0. -/
theorem C5_hold_on_nomatch (s : TromboneState) (i : Inputs) (hn : s.currentNote ≠ -1) :
    (i.panicSw = true →
      getOvertoneFromOvertoneSwitches (getRawOvertoneSwitchValue i) = -1 →
      getVolume i.breath ≠ 0 →
      (loop s i).1.currentNote = s.currentNote
      ∧ ∀ m ∈ (loop s i).2, isNoteOffMsg m = false ∧ isChanNoteOn 0 m = false)
    ∧ ((loop s i).1.currentNote = -1 → getVolume i.breath = 0) := by
  have hm1 : (metaStep s i.metaSw (getRawOvertoneSwitchValue i)).1.currentNote =
      s.currentNote := (metaStep_frame s i.metaSw (getRawOvertoneSwitchValue i)).1
  unfold loop
  dsimp only
  constructor
  · intro hp hd hv
    rw [getMIDINote_nomatch _ _ hd]
    have hold := noteMachineStep_hold (metaStep s i.metaSw (getRawOvertoneSwitchValue i)).1
      (getPitchBend i.slide) (getVolume i.breath) i.x i.y i.now (by rw [hm1]; exact hn) hv
    refine ⟨hold.1.trans hm1, ?_⟩
    intro m hmem
    rw [hp] at hmem
    rw [if_neg (by decide)] at hmem
    simp only [List.nil_append, List.mem_append] at hmem
    rcases hmem with hmem | hmem
    · rcases metaStep_msgs s i.metaSw (getRawOvertoneSwitchValue i) with he | he <;>
        rw [he] at hmem
      · simp at hmem
      · simp only [List.mem_singleton] at hmem
        subst hmem
        exact ⟨rfl, rfl⟩
    · have hcc := hold.2 m hmem
      exact ⟨(isCCorPB_not_note hcc).1, (isCCorPB_not_note hcc).2 0⟩
  · intro hend
    exact noteMachineStep_end_only _ _ _ _ _ _ _ (by rw [hm1]; exact hn)
      (getMIDINote_ne _ _ (getRawOvertoneSwitchValue_lt_16 i) (by rw [hm1]; exact hn)) hend

/-- Sounding state used by the C5 witness: note 48 is sounding. -/
def soundingState : TromboneState := { initialState with currentNote := 48 }

/-- Inputs of the C5 witness tick: invalid chord `0b0101`, breath on. -/
def nomatchInputs : Inputs :=
  { ot0 := true, ot1 := false, ot2 := true, ot3 := false, metaSw := true, panicSw := true,
    slide := 1011, breath := 500, x := 0, y := 0, now := 0 }

/-- C5 witness: the hold property at the concrete NoMatch tick. -/
theorem C5_witness :
    (loop soundingState nomatchInputs).1.currentNote = soundingState.currentNote
    ∧ ∀ m ∈ (loop soundingState nomatchInputs).2,
        isNoteOffMsg m = false ∧ isChanNoteOn 0 m = false :=
  (C5_hold_on_nomatch soundingState nomatchInputs (by decide)).1 rfl (by decide) (by decide)

/-- C10 (confirmed): on a tick with panic inactive, no meta release, a note
sounding and mapped volume 0, the tick emits exactly the one note-off for
the current note at velocity 0 (on channel 0), and none of the four cached
continuous-controller values changes. -/
theorem C10_breath_stop_frame (s : TromboneState) (i : Inputs)
    (hp : i.panicSw = true)
    (hnr : i.metaSw = false ∨ s.metaMode = false)
    (hn : s.currentNote ≠ -1)
    (hv : getVolume i.breath = 0) :
    (loop s i).2 = [MidiMessage.noteOff 0 s.currentNote 0]
    ∧ (loop s i).1.currentPitchBend = s.currentPitchBend
    ∧ (loop s i).1.currentVolume = s.currentVolume
    ∧ (loop s i).1.currentXValue = s.currentXValue
    ∧ (loop s i).1.currentYValue = s.currentYValue := by
  have hfr := metaStep_frame s i.metaSw (getRawOvertoneSwitchValue i)
  have hmm : (metaStep s i.metaSw (getRawOvertoneSwitchValue i)).2 = [] := by
    rcases metaStep_spec s i.metaSw (getRawOvertoneSwitchValue i) with
      ⟨-, he⟩ | ⟨hb, hsm, -⟩ | ⟨-, -, he⟩
    · rw [he]
    · rcases hnr with hc | hc
      · simp [hc] at hb
      · simp [hc] at hsm
    · rw [he]
  have hstep := noteMachineStep_noteOff (metaStep s i.metaSw (getRawOvertoneSwitchValue i)).1
    (getPitchBend i.slide)
    (getMIDINote (metaStep s i.metaSw (getRawOvertoneSwitchValue i)).1.currentNote
      (getRawOvertoneSwitchValue i))
    (getVolume i.breath) i.x i.y i.now (by rw [hfr.1]; exact hn) hv
  unfold loop
  dsimp only
  rw [hstep, hp, hmm]
  dsimp only
  rw [if_neg (by decide)]
  exact ⟨by rw [hfr.1]; rfl, hfr.2.1, hfr.2.2.1, hfr.2.2.2.1, hfr.2.2.2.2.1⟩

/-- Inputs of the C10 witness tick: breath stopped, chord `0b0000`. -/
def breathStopInputs : Inputs :=
  { ot0 := true, ot1 := true, ot2 := true, ot3 := true, metaSw := true, panicSw := true,
    slide := 1011, breath := 0, x := 0, y := 0, now := 0 }

/-- C10 witness: the frame property at the concrete breath-stop tick. -/
theorem C10_witness :
    (loop soundingState breathStopInputs).2 =
      [MidiMessage.noteOff 0 soundingState.currentNote 0]
    ∧ (loop soundingState breathStopInputs).1.currentPitchBend =
        soundingState.currentPitchBend
    ∧ (loop soundingState breathStopInputs).1.currentVolume = soundingState.currentVolume
    ∧ (loop soundingState breathStopInputs).1.currentXValue = soundingState.currentXValue
    ∧ (loop soundingState breathStopInputs).1.currentYValue = soundingState.currentYValue :=
  C10_breath_stop_frame soundingState breathStopInputs rfl (Or.inr rfl) (by decide) (by decide)

/-- Is `m` a control change for controller number `ctrl`? -/
def isCCof (ctrl : Int) : MidiMessage → Bool
  | .cc _ c2 _ => decide (c2 = ctrl)
  | _ => false

theorem cabs_self_not_gt_vol (z : Int) : ¬cabs (z - z) > VOLUME_SEND_THRESHOLD := by
  rw [sub_self]; decide

theorem cabs_self_not_gt_pb (z : Int) : ¬cabs (z - z) > PB_SEND_THRESHOLD := by
  rw [sub_self]; decide

/-- C6 (confirmed): each gated continuous signal emits only when the
candidate differs from the previously transmitted value by more than its
threshold (pitch bend additionally skips the `-1` sentinel); feeding the
identical candidate again right away emits nothing, and two consecutive
candidates within threshold of each other yield at most one message for the
signal. -/
theorem C6_change_gate (s : TromboneState) (v w x y c : Int) :
    ((sendPitchBend s v).2 ≠ [] →
      v ≠ -1 ∧ cabs (s.currentPitchBend - v) > PB_SEND_THRESHOLD)
    ∧ ((sendBreathController s v c).2 ≠ [] →
        cabs (s.currentVolume - v) > VOLUME_SEND_THRESHOLD)
    ∧ (MidiMessage.cc c X_CC (arduinoMap x 0 1024 0 127) ∈ (sendXYControllers s x y c).2 →
        cabs (s.currentXValue - arduinoMap x 0 1024 0 127) > VOLUME_SEND_THRESHOLD)
    ∧ (MidiMessage.cc c Y_CC (arduinoMap y 0 1024 0 127) ∈ (sendXYControllers s x y c).2 →
        cabs (s.currentYValue - arduinoMap y 0 1024 0 127) > VOLUME_SEND_THRESHOLD)
    ∧ (sendPitchBend (sendPitchBend s v).1 v).2 = []
    ∧ (sendBreathController (sendBreathController s v c).1 v c).2 = []
    ∧ (sendXYControllers (sendXYControllers s x y c).1 x y c).2 = []
    ∧ (cabs (v - w) ≤ PB_SEND_THRESHOLD →
        (sendPitchBend s v).2.length + (sendPitchBend (sendPitchBend s v).1 w).2.length ≤ 1)
    ∧ (cabs (v - w) ≤ VOLUME_SEND_THRESHOLD →
        (sendBreathController s v c).2.length +
          (sendBreathController (sendBreathController s v c).1 w c).2.length ≤ 1) := by
  refine ⟨?_, ?_, ?_, ?_, ?_, ?_, ?_, ?_, ?_⟩
  · intro h
    rcases sendPitchBend_spec s v with ⟨-, he⟩ | ⟨h1, h2, -⟩
    · rw [he] at h; exact absurd rfl h
    · exact ⟨h1, h2⟩
  · intro h
    rcases sendBreathController_spec s v c with ⟨-, he⟩ | ⟨h1, -⟩
    · rw [he] at h; exact absurd rfl h
    · exact h1
  · intro h
    rcases sendXYControllers_spec s x y c with
      ⟨-, -, he⟩ | ⟨h1, -, he⟩ | ⟨-, -, he⟩ | ⟨h1, -, he⟩ <;> rw [he] at h
    · simp at h
    · exact h1
    · simp [X_CC, Y_CC] at h
    · exact h1
  · intro h
    rcases sendXYControllers_spec s x y c with
      ⟨-, -, he⟩ | ⟨-, -, he⟩ | ⟨-, h2, he⟩ | ⟨-, h2, he⟩ <;> rw [he] at h
    · simp at h
    · simp [X_CC, Y_CC] at h
    · exact h2
    · exact h2
  · rcases sendPitchBend_spec s v with ⟨-, he⟩ | ⟨h1, -, he⟩
    · simp [he]
    · simp only [he]
      unfold sendPitchBend
      rw [if_pos h1, if_neg (fun hgt => cabs_self_not_gt_pb v (by simpa using hgt))]
  · rcases sendBreathController_spec s v c with ⟨-, he⟩ | ⟨-, he⟩
    · simp [he]
    · simp only [he]
      unfold sendBreathController
      rw [if_neg (fun hgt => cabs_self_not_gt_vol v (by simpa using hgt))]
  · rcases sendXYControllers_spec s x y c with
      ⟨hx, hy, he⟩ | ⟨hx, hy, he⟩ | ⟨hx, hy, he⟩ | ⟨hx, hy, he⟩
    · simp [he]
    · simp only [he]
      rcases sendXYControllers_spec { s with currentXValue := arduinoMap x 0 1024 0 127 }
        x y c with ⟨-, -, he2⟩ | ⟨hgx, -, he2⟩ | ⟨-, hgy, he2⟩ | ⟨hgx, -, he2⟩
      · rw [he2]
      · exact absurd hgx (by dsimp only; exact cabs_self_not_gt_vol _)
      · exact absurd hgy (by dsimp only; exact not_lt.mpr hy)
      · exact absurd hgx (by dsimp only; exact cabs_self_not_gt_vol _)
    · simp only [he]
      rcases sendXYControllers_spec { s with currentYValue := arduinoMap y 0 1024 0 127 }
        x y c with ⟨-, -, he2⟩ | ⟨hgx, -, he2⟩ | ⟨-, hgy, he2⟩ | ⟨hgx, -, he2⟩
      · rw [he2]
      · exact absurd hgx (by dsimp only; exact not_lt.mpr hx)
      · exact absurd hgy (by dsimp only; exact cabs_self_not_gt_vol _)
      · exact absurd hgx (by dsimp only; exact not_lt.mpr hx)
    · simp only [he]
      rcases sendXYControllers_spec { s with
          currentXValue := arduinoMap x 0 1024 0 127,
          currentYValue := arduinoMap y 0 1024 0 127 }
        x y c with ⟨-, -, he2⟩ | ⟨hgx, -, he2⟩ | ⟨-, hgy, he2⟩ | ⟨hgx, -, he2⟩
      · rw [he2]
      · exact absurd hgx (by dsimp only; exact cabs_self_not_gt_vol _)
      · exact absurd hgy (by dsimp only; exact cabs_self_not_gt_vol _)
      · exact absurd hgx (by dsimp only; exact cabs_self_not_gt_vol _)
  · intro hthr
    rcases sendPitchBend_spec s v with ⟨-, he⟩ | ⟨-, -, he⟩
    · simp only [he]
      rcases sendPitchBend_spec s w with ⟨-, he2⟩ | ⟨-, -, he2⟩ <;> simp [he2]
    · simp only [he]
      rcases sendPitchBend_spec { s with currentPitchBend := v } w with
        ⟨-, he2⟩ | ⟨-, hg, he2⟩
      · simp [he2]
      · exfalso
        rw [show ({ s with currentPitchBend := v } : TromboneState).currentPitchBend = v
          from rfl] at hg
        unfold cabs at hthr hg
        unfold PB_SEND_THRESHOLD at hthr hg
        split_ifs at hthr hg <;> omega
  · intro hthr
    rcases sendBreathController_spec s v c with ⟨-, he⟩ | ⟨-, he⟩
    · simp only [he]
      rcases sendBreathController_spec s w c with ⟨-, he2⟩ | ⟨-, he2⟩ <;> simp [he2]
    · simp only [he]
      rcases sendBreathController_spec { s with currentVolume := v } w c with
        ⟨-, he2⟩ | ⟨hg, he2⟩
      · simp [he2]
      · exfalso
        rw [show ({ s with currentVolume := v } : TromboneState).currentVolume = v
          from rfl] at hg
        unfold cabs at hthr hg
        unfold VOLUME_SEND_THRESHOLD at hthr hg
        split_ifs at hthr hg <;> omega

/-- C6 witness: the gate conditions and suppression facts at concrete
values (cached pitch bend 8191 vs candidate 100; caches 0 vs breath 100,
X raw 1000, Y raw 600; follow-up candidates within threshold). -/
theorem C6_witness :
    ((100 : Int) ≠ -1 ∧ cabs (initialState.currentPitchBend - 100) > PB_SEND_THRESHOLD)
    ∧ cabs (initialState.currentVolume - 100) > VOLUME_SEND_THRESHOLD
    ∧ cabs (initialState.currentXValue - arduinoMap 1000 0 1024 0 127) > VOLUME_SEND_THRESHOLD
    ∧ cabs (initialState.currentYValue - arduinoMap 600 0 1024 0 127) > VOLUME_SEND_THRESHOLD
    ∧ (sendPitchBend (sendPitchBend initialState 100).1 100).2 = []
    ∧ (sendBreathController (sendBreathController initialState 100 0).1 100 0).2 = []
    ∧ (sendXYControllers (sendXYControllers initialState 1000 600 0).1 1000 600 0).2 = []
    ∧ (sendPitchBend initialState 100).2.length +
        (sendPitchBend (sendPitchBend initialState 100).1 101).2.length ≤ 1
    ∧ (sendBreathController initialState 100 0).2.length +
        (sendBreathController (sendBreathController initialState 100 0).1 101 0).2.length ≤ 1 := by
  have h := C6_change_gate initialState 100 101 1000 600 0
  exact ⟨h.1 (by decide), h.2.1 (by decide), h.2.2.1 (by decide), h.2.2.2.1 (by decide),
    h.2.2.2.2.1, h.2.2.2.2.2.1, h.2.2.2.2.2.2.1,
    h.2.2.2.2.2.2.2.1 (by decide), h.2.2.2.2.2.2.2.2 (by decide)⟩

/-- C9 (confirmed): for each gated sender, the cached value for a signal is
updated exactly when the corresponding message is emitted — either nothing
is sent and the state is untouched, or exactly the one message carrying the
new value is sent and the cache is set to that value (so each cache equals
the last transmitted value); the pitch-bend sender treats the `-1`
not-touching sentinel as send-nothing, cache-unchanged. -/
theorem C9_cache_equals_last_transmitted (s : TromboneState) (v b x y c : Int) :
    (((sendPitchBend s v).2 = [] ∧ (sendPitchBend s v).1 = s) ∨
      ((sendPitchBend s v).2 = [MidiMessage.pitchBend v] ∧
        (sendPitchBend s v).1 = { s with currentPitchBend := v }))
    ∧ (v = -1 → (sendPitchBend s v).2 = [] ∧ (sendPitchBend s v).1 = s)
    ∧ (((sendBreathController s b c).2 = [] ∧ (sendBreathController s b c).1 = s) ∨
      ((sendBreathController s b c).2 = [MidiMessage.cc c MIDI_BREATH_CC b] ∧
        (sendBreathController s b c).1 = { s with currentVolume := b }))
    ∧ (((sendXYControllers s x y c).2.filter (isCCof X_CC) = [] ∧
          (sendXYControllers s x y c).1.currentXValue = s.currentXValue) ∨
        ((sendXYControllers s x y c).2.filter (isCCof X_CC) =
            [MidiMessage.cc c X_CC (arduinoMap x 0 1024 0 127)] ∧
          (sendXYControllers s x y c).1.currentXValue = arduinoMap x 0 1024 0 127))
    ∧ (((sendXYControllers s x y c).2.filter (isCCof Y_CC) = [] ∧
          (sendXYControllers s x y c).1.currentYValue = s.currentYValue) ∨
        ((sendXYControllers s x y c).2.filter (isCCof Y_CC) =
            [MidiMessage.cc c Y_CC (arduinoMap y 0 1024 0 127)] ∧
          (sendXYControllers s x y c).1.currentYValue = arduinoMap y 0 1024 0 127)) := by
  refine ⟨?_, ?_, ?_, ?_, ?_⟩
  · rcases sendPitchBend_spec s v with ⟨-, he⟩ | ⟨-, -, he⟩ <;> rw [he]
    · exact Or.inl ⟨rfl, rfl⟩
    · exact Or.inr ⟨rfl, rfl⟩
  · intro hv
    subst hv
    unfold sendPitchBend
    rw [if_neg (by simp)]
    exact ⟨rfl, rfl⟩
  · rcases sendBreathController_spec s b c with ⟨-, he⟩ | ⟨-, he⟩ <;> rw [he]
    · exact Or.inl ⟨rfl, rfl⟩
    · exact Or.inr ⟨rfl, rfl⟩
  · rcases sendXYControllers_spec s x y c with
      ⟨-, -, he⟩ | ⟨-, -, he⟩ | ⟨-, -, he⟩ | ⟨-, -, he⟩ <;> rw [he] <;>
      simp [isCCof, X_CC, Y_CC]
  · rcases sendXYControllers_spec s x y c with
      ⟨-, -, he⟩ | ⟨-, -, he⟩ | ⟨-, -, he⟩ | ⟨-, -, he⟩ <;> rw [he] <;>
      simp [isCCof, X_CC, Y_CC]

/-- C9 witness: the not-touching sentinel conjunct at the initial state. -/
theorem C9_witness :
    (sendPitchBend initialState (-1)).2 = [] ∧ (sendPitchBend initialState (-1)).1 = initialState :=
  (C9_cache_equals_last_transmitted initialState (-1) 0 0 0 0).2.1 rfl
